import Mathlib

/-!
Shallow embedding of the session-management service in
`src/src/app/services/auth.service.ts` (class `AuthService`).

The service composes three collaborators: an HTTP client, the browser
`localStorage` key-value store (keys `auth-token` and `user`), and two
`BehaviorSubject` reactive value holders (`authStatusSubject` and
`currentUserSubject`).  We model the whole observable state of one service
instance as a record:

* `storedToken`  — the `auth-token` entry of `localStorage` (`none` = absent);
* `storedUser`   — the `user` entry of `localStorage`; the source stores the
  JSON serialization of a `User`, and only ever writes `JSON.stringify` of a
  `User` value, so we keep the deserialized value;
* `authStatus`   — the latest value of `authStatusSubject`;
* `currentUser`  — the latest value of `currentUserSubject`.

JavaScript truthiness matters in three places of the source and is embedded
faithfully: `!!localStorage.getItem('auth-token')` is `false` for the empty
string, `this.getUser()?.role || null` yields `null` for an empty role
string, and `if (error?.error?.msg)` falls through when `msg` is the empty
string.
-/

set_option autoImplicit false

namespace AuthService

/-- `interface User` of the source: `{name, email, role}`. -/
structure User where
  name : String
  email : String
  role : String
deriving DecidableEq, Repr

/-- `interface AuthResponse` of the source: `{token, user}`. -/
structure AuthResponse where
  token : String
  user : User
deriving DecidableEq, Repr

/-- The observable state of one `AuthService` instance: the two
`localStorage` entries it touches and the latest values of its two
`BehaviorSubject`s. -/
structure AuthState where
  storedToken : Option String
  storedUser : Option User
  authStatus : Bool
  currentUser : Option User
deriving DecidableEq, Repr

/-- `hasToken()`: `!!localStorage.getItem('auth-token')`.  In JavaScript
`!!` of `null` and of the empty string is `false`. -/
def hasToken (s : AuthState) : Bool :=
  match s.storedToken with
  | some t => !t.isEmpty
  | none => false

/-- `saveSession(response)`: writes the token and the user to
`localStorage`, pushes `true` on `authStatusSubject` and the user on
`currentUserSubject`. -/
def saveSession (response : AuthResponse) (s : AuthState) : AuthState :=
  { s with
    storedToken := some response.token
    storedUser := some response.user
    authStatus := true
    currentUser := some response.user }

/-- `getToken()`: reads the `auth-token` entry of `localStorage`. -/
def getToken (s : AuthState) : Option String :=
  s.storedToken

/-- `getUser()`: reads the cached `currentUserSubject.value`, not the
store. -/
def getUser (s : AuthState) : Option User :=
  s.currentUser

/-- `getUserRole()`: `this.getUser()?.role || null`.  The `|| null`
turns a falsy role (the empty string) into `null`. -/
def getUserRole (s : AuthState) : Option String :=
  match getUser s with
  | some u => if u.role.isEmpty then none else some u.role
  | none => none

/-- `isAuthenticated()`: re-derived from storage through `hasToken()`. -/
def isAuthenticated (s : AuthState) : Bool :=
  hasToken s

/-- `logout()`: removes both `localStorage` entries, pushes `false` on
`authStatusSubject` and `null` on `currentUserSubject`. -/
def logout (s : AuthState) : AuthState :=
  { s with
    storedToken := none
    storedUser := none
    authStatus := false
    currentUser := none }

/-- `getStoredUser()`: reads and deserializes the `user` entry of
`localStorage` (`raw ? JSON.parse(raw) : null`). -/
def getStoredUser (storedUser : Option User) : Option User :=
  storedUser

/-- Construction of the service: `authStatusSubject` starts at
`hasToken()` and `currentUserSubject` at `getStoredUser()`, both computed
from whatever `localStorage` holds at cold start. -/
def initState (storedToken : Option String) (storedUser : Option User) : AuthState :=
  { storedToken := storedToken
    storedUser := storedUser
    authStatus := match storedToken with
                  | some t => !t.isEmpty
                  | none => false
    currentUser := getStoredUser storedUser }

/-- One field-level error object inside `error.error.errors`; the mapping
in the source reads its `msg` field. -/
structure FieldError where
  msg : String
deriving DecidableEq, Repr

/-- The `error.error` body of a failed HTTP response: an optional
server-supplied `msg` and an optional array `errors` of field-level
error objects (`none` = the field is absent / not an array). -/
structure ServerErrorBody where
  msg : Option String
  errors : Option (List FieldError)
deriving DecidableEq, Repr

/-- The failure value handed to `handleError`: its optional `error` body
and its optional numeric `status` (`none` = `undefined`). -/
structure HttpErrorVal where
  error : Option ServerErrorBody
  status : Option Nat
deriving DecidableEq, Repr

/-- The message substituted when `error.status === 0`. -/
def connectivityMessage : String :=
  "Unable to connect to the server. Check your internet connection or CORS policy."

/-- The initial generic fallback message of `handleError`. -/
def fallbackMessage : String :=
  "Something went wrong. Please try again later."

/-- The truthiness test `error?.error?.msg`: yields the message only when
the chain is defined and the string is non-empty. -/
def truthyMsg (e : HttpErrorVal) : Option String :=
  match e.error with
  | some body =>
    match body.msg with
    | some m => if m.isEmpty then none else some m
    | none => none
  | none => none

/-- The test `Array.isArray(error?.error?.errors)`: yields the array when
the chain is defined and the field is an array. -/
def errorsArray (e : HttpErrorVal) : Option (List FieldError) :=
  match e.error with
  | some body => body.errors
  | none => none

/-- The message chosen by `handleError`: server `msg` if truthy, else the
joined field-level messages if `errors` is an array, else the
connectivity message if `status === 0`, else the generic fallback. -/
def handleErrorMessage (e : HttpErrorVal) : String :=
  match truthyMsg e with
  | some m => m
  | none =>
    match errorsArray e with
    | some l => String.intercalate (", ") (l.map FieldError.msg)
    | none =>
      if e.status = some 0 then connectivityMessage else fallbackMessage

/-- The value propagated by `throwError(() => new Error(message))`: a
fresh error object holding only the chosen message string. -/
structure ErrorObj where
  message : String
deriving DecidableEq, Repr

/-- `handleError(error)`: logs the original failure and propagates a new
`Error` carrying only the chosen message. -/
def handleError (e : HttpErrorVal) : ErrorObj :=
  { message := handleErrorMessage e }

/-- The outcome of one HTTP call made by `register` or `login`: either a
successful `AuthResponse` or the failure value seen by `handleError`. -/
inductive HttpOutcome where
  | ok (r : AuthResponse)
  | fail (e : HttpErrorVal)
deriving DecidableEq, Repr

/-- One operation of the module's public API that can touch session
state.  `register` and `login` run `tap(res => this.saveSession(res))` on
success and `catchError(this.handleError)` (which leaves the session
state untouched) on failure. -/
inductive Op where
  | opSaveSession (r : AuthResponse)
  | opLogout
  | opRegister (name email password : String) (outcome : HttpOutcome)
  | opLogin (email password : String) (outcome : HttpOutcome)
deriving DecidableEq, Repr

/-- The effect of one operation on the service state. -/
def applyOp (s : AuthState) (op : Op) : AuthState :=
  match op with
  | .opSaveSession r => saveSession r s
  | .opLogout => logout s
  | .opRegister _ _ _ (.ok r) => saveSession r s
  | .opRegister _ _ _ (.fail _) => s
  | .opLogin _ _ (.ok r) => saveSession r s
  | .opLogin _ _ (.fail _) => s

/-- Running a sequence of operations. -/
def runOps (s : AuthState) : List Op → AuthState :=
  List.foldl applyOp s

/-- The session-state invariant: the `auth-token` entry is present in
storage exactly when the `user` entry is. -/
def sessionInvariant (s : AuthState) : Prop :=
  s.storedToken.isSome = s.storedUser.isSome

instance (s : AuthState) : Decidable (sessionInvariant s) := by
  unfold sessionInvariant
  infer_instance

/-- Every single operation preserves the session-state invariant. -/
theorem applyOp_sessionInvariant (s : AuthState) (op : Op)
    (h : sessionInvariant s) : sessionInvariant (applyOp s op) := by
  cases op with
  | opSaveSession r => rfl
  | opLogout => rfl
  | opRegister n e p outcome => cases outcome with
    | ok r => rfl
    | fail e => exact h
  | opLogin e p outcome => cases outcome with
    | ok r => rfl
    | fail e => exact h

end AuthService

/-- C1: after `saveSession` is applied to an `AuthResponse` with token `t`
and user `u`, `getToken()` returns `t` and `getUser()` returns `u`. -/
theorem AuthService.saveSession_getToken_getUser
    (r : AuthService.AuthResponse) (s : AuthService.AuthState) :
    AuthService.getToken (AuthService.saveSession r s) = some r.token ∧
    AuthService.getUser (AuthService.saveSession r s) = some r.user :=
  ⟨rfl, rfl⟩

/-- C2: after `logout()`, `getToken()` returns none, `getUser()` returns
none, and the latest value of the authenticated stream is `false`. -/
theorem AuthService.logout_clears (s : AuthService.AuthState) :
    AuthService.getToken (AuthService.logout s) = none ∧
    AuthService.getUser (AuthService.logout s) = none ∧
    (AuthService.logout s).authStatus = false :=
  ⟨rfl, rfl, rfl⟩

/-- C3 counterexample: for the `AuthResponse` with the empty token,
`isAuthenticated()` is not `true` right after `saveSession`, because
`hasToken()` tests truthiness and the empty string is falsy. -/
theorem AuthService.isAuthenticated_saveSession_cex :
    AuthService.isAuthenticated
      (AuthService.saveSession ⟨"", ⟨"n", "e", "user"⟩⟩
        ⟨none, none, false, none⟩) ≠ true := by
  decide

/-- C3 (amended): `isAuthenticated()` is `true` immediately after
`saveSession` is applied to an `AuthResponse` whose token is non-empty,
and `false` immediately after `logout()`. -/
theorem AuthService.isAuthenticated_after_save_and_logout
    (r : AuthService.AuthResponse) (s t : AuthService.AuthState)
    (h : r.token ≠ "") :
    AuthService.isAuthenticated (AuthService.saveSession r s) = true ∧
    AuthService.isAuthenticated (AuthService.logout t) = false := by
  refine ⟨?_, rfl⟩
  have hemp : r.token.isEmpty = false := by
    cases hb : r.token.isEmpty with
    | false => rfl
    | true => exact absurd ((String.isEmpty_iff r.token).mp hb) h
  simp [AuthService.isAuthenticated, AuthService.hasToken,
    AuthService.saveSession, hemp]

/-- C3 witness: the amended statement at a concrete non-empty token. -/
theorem AuthService.isAuthenticated_after_save_and_logout_witness :
    AuthService.isAuthenticated
      (AuthService.saveSession ⟨"tok", ⟨"n", "e", "user"⟩⟩
        ⟨none, none, false, none⟩) = true ∧
    AuthService.isAuthenticated
      (AuthService.logout ⟨none, none, false, none⟩) = false :=
  AuthService.isAuthenticated_after_save_and_logout
    ⟨"tok", ⟨"n", "e", "user"⟩⟩ ⟨none, none, false, none⟩
    ⟨none, none, false, none⟩ (by decide)

/-- C4: from any state where the token entry and the user entry are both
present or both absent, every sequence of the module's operations
(`saveSession`, `logout`, `register`, `login`) keeps the token entry
present in storage exactly when the user entry is; in particular the
invariant holds after each prefix of the sequence. -/
theorem AuthService.runOps_sessionInvariant
    (s : AuthService.AuthState) (h : AuthService.sessionInvariant s)
    (ops : List AuthService.Op) :
    AuthService.sessionInvariant (AuthService.runOps s ops) := by
  induction ops generalizing s with
  | nil => exact h
  | cons op rest ih =>
    exact ih (AuthService.applyOp s op)
      (AuthService.applyOp_sessionInvariant s op h)

/-- C4 witness: the invariant holds after a concrete run of
register-success, saveSession, failed login, and logout. -/
theorem AuthService.runOps_sessionInvariant_witness :
    AuthService.sessionInvariant
      (AuthService.runOps ⟨none, none, false, none⟩
        [AuthService.Op.opRegister ("n") ("e") ("p")
            (AuthService.HttpOutcome.ok ⟨"tok", ⟨"n", "e", "user"⟩⟩),
         AuthService.Op.opSaveSession ⟨"t2", ⟨"m", "f", "admin"⟩⟩,
         AuthService.Op.opLogin ("e") ("p")
            (AuthService.HttpOutcome.fail ⟨none, some 0⟩),
         AuthService.Op.opLogout]) :=
  AuthService.runOps_sessionInvariant ⟨none, none, false, none⟩ (by decide) _

/-- Helper: a non-empty string has `isEmpty = false`. -/
theorem AuthService.isEmpty_false_of_ne (m : String) (h : m ≠ "") :
    m.isEmpty = false := by
  cases hb : m.isEmpty with
  | false => rfl
  | true => exact absurd ((String.isEmpty_iff m).mp hb) h

/-- C5 counterexample: for the failure `{error: {msg: ""}}` the `msg`
field is present, yet the propagated message is not that string — the
source tests `msg` for truthiness and the empty string falls through to
the generic fallback. -/
theorem AuthService.handleError_msg_cex :
    (AuthService.handleError ⟨some ⟨some "", none⟩, none⟩).message ≠ "" ∧
    (AuthService.handleError ⟨some ⟨some "", none⟩, none⟩).message =
      AuthService.fallbackMessage := by
  constructor
  · decide
  · rfl

/-- C5 (amended): for every failure whose `error.error.msg` field is
present and non-empty, the propagated error carries exactly that message
string. -/
theorem AuthService.handleError_msg_truthy
    (e : AuthService.HttpErrorVal) (body : AuthService.ServerErrorBody)
    (m : String) (hbody : e.error = some body) (hm : body.msg = some m)
    (hne : m ≠ "") :
    (AuthService.handleError e).message = m := by
  simp [AuthService.handleError, AuthService.handleErrorMessage,
    AuthService.truthyMsg, hbody, hm, AuthService.isEmpty_false_of_ne m hne]

/-- C5 witness: the `{error: {msg: "Email taken"}}` failure propagates
exactly "Email taken". -/
theorem AuthService.handleError_msg_truthy_witness :
    (AuthService.handleError ⟨some ⟨some "Email taken", none⟩, none⟩).message =
      "Email taken" :=
  AuthService.handleError_msg_truthy ⟨some ⟨some "Email taken", none⟩, none⟩
    ⟨some "Email taken", none⟩ ("Email taken") rfl rfl (by decide)

/-- C6: for every failure with no server-supplied `msg` field whose
`error.error.errors` field is an array, the propagated message is the
elements' `msg` fields joined with ", ". -/
theorem AuthService.handleError_joins_field_errors
    (e : AuthService.HttpErrorVal) (body : AuthService.ServerErrorBody)
    (l : List AuthService.FieldError) (hbody : e.error = some body)
    (hmsg : body.msg = none) (herrs : body.errors = some l) :
    (AuthService.handleError e).message =
      String.intercalate (", ") (l.map AuthService.FieldError.msg) := by
  simp [AuthService.handleError, AuthService.handleErrorMessage,
    AuthService.truthyMsg, AuthService.errorsArray, hbody, hmsg, herrs]

/-- C6 witness: `{error: {errors: [{msg:"A"},{msg:"B"}]}}` propagates
"A, B". -/
theorem AuthService.handleError_joins_field_errors_witness :
    (AuthService.handleError
      ⟨some ⟨none, some [⟨"A"⟩, ⟨"B"⟩]⟩, none⟩).message = "A, B" := by
  have h := AuthService.handleError_joins_field_errors
    ⟨some ⟨none, some [⟨"A"⟩, ⟨"B"⟩]⟩, none⟩ ⟨none, some [⟨"A"⟩, ⟨"B"⟩]⟩
    [⟨"A"⟩, ⟨"B"⟩] rfl rfl rfl
  rw [h]
  decide

/-- C7: for every failure with no server-supplied `msg` and no
field-error array, the propagated message is the fixed connectivity
string when `status === 0` and the generic fallback otherwise; moreover
the propagated value is a fresh error determined only by the chosen
message, so the original structured failure is not part of it. -/
theorem AuthService.handleError_fallback_cases
    (e : AuthService.HttpErrorVal)
    (hmsg : ∀ body, e.error = some body → body.msg = none)
    (herrs : ∀ body, e.error = some body → body.errors = none) :
    (e.status = some 0 →
      (AuthService.handleError e).message = AuthService.connectivityMessage) ∧
    (e.status ≠ some 0 →
      (AuthService.handleError e).message = AuthService.fallbackMessage) ∧
    (∀ e2, AuthService.handleErrorMessage e2 = AuthService.handleErrorMessage e →
      AuthService.handleError e2 = AuthService.handleError e) := by
  have ht : AuthService.truthyMsg e = none := by
    cases he : e.error with
    | none => simp [AuthService.truthyMsg, he]
    | some body => simp [AuthService.truthyMsg, he, hmsg body he]
  have ha : AuthService.errorsArray e = none := by
    cases he : e.error with
    | none => simp [AuthService.errorsArray, he]
    | some body => simp [AuthService.errorsArray, he, herrs body he]
  refine ⟨?_, ?_, ?_⟩
  · intro h0
    simp [AuthService.handleError, AuthService.handleErrorMessage, ht, ha, h0]
  · intro h0
    simp [AuthService.handleError, AuthService.handleErrorMessage, ht, ha, h0]
  · intro e2 hm
    simp [AuthService.handleError, hm]

/-- C7 witness: the no-response failure (`status === 0`, no error body)
propagates the connectivity message. -/
theorem AuthService.handleError_fallback_cases_witness :
    (AuthService.handleError ⟨none, some 0⟩).message =
      AuthService.connectivityMessage :=
  (AuthService.handleError_fallback_cases ⟨none, some 0⟩
    (fun body h => by cases h) (fun body h => by cases h)).1 rfl

/-- C8 counterexample: with a current user whose role is the empty
string, `getUser()` returns that user but `getUserRole()` does not
return the user's role string — `?.role || null` turns the falsy empty
role into `null`. -/
theorem AuthService.getUserRole_cex :
    AuthService.getUser ⟨none, none, false, some ⟨"n", "e", ""⟩⟩ =
      some ⟨"n", "e", ""⟩ ∧
    AuthService.getUserRole ⟨none, none, false, some ⟨"n", "e", ""⟩⟩ ≠
      some (AuthService.User.mk ("n") ("e") ("")).role := by
  constructor
  · rfl
  · decide

/-- C8 (amended): `getUserRole()` returns the current user's role when
`getUser()` returns a user with a non-empty role, and returns none when
the role is the empty string or there is no user. -/
theorem AuthService.getUserRole_spec (s : AuthService.AuthState) :
    (∀ u, AuthService.getUser s = some u → u.role ≠ "" →
      AuthService.getUserRole s = some u.role) ∧
    (∀ u, AuthService.getUser s = some u → u.role = "" →
      AuthService.getUserRole s = none) ∧
    (AuthService.getUser s = none → AuthService.getUserRole s = none) := by
  refine ⟨?_, ?_, ?_⟩
  · intro u hu hne
    simp [AuthService.getUserRole, hu, AuthService.isEmpty_false_of_ne u.role hne]
  · intro u hu hrole
    simp [AuthService.getUserRole, hu, hrole]
    decide
  · intro hu
    simp [AuthService.getUserRole, hu]

/-- C8 witness: the amended statement at a concrete user with role
"admin" and at the empty session. -/
theorem AuthService.getUserRole_spec_witness :
    AuthService.getUserRole ⟨none, none, false, some ⟨"n", "e", "admin"⟩⟩ =
      some "admin" :=
  (AuthService.getUserRole_spec ⟨none, none, false, some ⟨"n", "e", "admin"⟩⟩).1
    ⟨"n", "e", "admin"⟩ rfl (by decide)

/-- C9: after `saveSession` of an `AuthResponse` with the empty token,
the authenticated stream's latest value is `true` while
`isAuthenticated()` returns `false`: the broadcast flag and the
storage-derived check disagree. -/
theorem AuthService.saveSession_emptyToken_diverges
    (u : AuthService.User) (s : AuthService.AuthState) :
    (AuthService.saveSession ⟨"", u⟩ s).authStatus = true ∧
    AuthService.isAuthenticated (AuthService.saveSession ⟨"", u⟩ s) = false :=
  ⟨rfl, rfl⟩

/-- C10: for a failure with no server-supplied `msg` and an empty
field-error array, the propagated message is the empty string — neither
the connectivity message nor the generic fallback. -/
theorem AuthService.handleError_empty_errors_array
    (e : AuthService.HttpErrorVal) (body : AuthService.ServerErrorBody)
    (hbody : e.error = some body) (hmsg : body.msg = none)
    (herrs : body.errors = some []) :
    (AuthService.handleError e).message = "" ∧
    (AuthService.handleError e).message ≠ AuthService.connectivityMessage ∧
    (AuthService.handleError e).message ≠ AuthService.fallbackMessage := by
  have h1 : (AuthService.handleError e).message = "" := by
    simp [AuthService.handleError, AuthService.handleErrorMessage,
      AuthService.truthyMsg, AuthService.errorsArray, hbody, hmsg, herrs]
    decide
  refine ⟨h1, ?_, ?_⟩ <;> rw [h1] <;> decide

/-- C10 witness: `{error: {errors: []}}` with `status === 0` still
propagates the empty string, not the connectivity message. -/
theorem AuthService.handleError_empty_errors_array_witness :
    (AuthService.handleError ⟨some ⟨none, some []⟩, some 0⟩).message = "" :=
  (AuthService.handleError_empty_errors_array ⟨some ⟨none, some []⟩, some 0⟩
    ⟨none, some []⟩ rfl rfl rfl).1
